import Mathlib

/-!
Verification of the reminder-dispatch core of the personal productivity
dashboard: a shallow embedding of the two scheduled serverless functions
(the per-minute habit reminder job in
supabase/functions/send-reminders/index.ts and the hourly task reminder
job) together with proofs of the specified properties.

External effects are made explicit: the environment record carries the
store tables, per-query error injections, the identity-provider lookup
and the set of recipient addresses for which the email API fails; each
job returns its diagnostic response together with the trace of attempted
email-send calls.
-/

namespace Spec2Proof

/-- JavaScript truthiness of an optional string: undefined / null and the
empty string are falsy. -/
def isTruthy : Option String → Bool
  | none => false
  | some s => s ≠ ""

/-- Rendering with String(n).padStart(2, "0"). -/
def pad2 (n : Nat) : String :=
  let s := toString n
  if s.length < 2 then "0" ++ s else s

/-- Milliseconds of the shifted clock: now.getTime() + (5 * 60 + 30) * 60 * 1000,
the IST (UTC+05:30) adjustment both jobs apply. -/
def istMs (nowMs : Nat) : Nat := nowMs + (5 * 60 + 30) * 60 * 1000

/-- getUTCHours() of the shifted clock. -/
def istHour (nowMs : Nat) : Nat := istMs nowMs / 3600000 % 24

/-- getUTCMinutes() of the shifted clock. -/
def istMinute (nowMs : Nat) : Nat := istMs nowMs / 60000 % 60

/-- The currentMinute string of the habit job: hh:mm:00 of the shifted clock. -/
def currentMinuteStr (nowMs : Nat) : String :=
  pad2 (istHour nowMs) ++ ":" ++ pad2 (istMinute nowMs) ++ ":00"

/-- Proleptic Gregorian civil date (year, month, day) from days since
1970-01-01, the calendar arithmetic behind getUTCFullYear / getUTCMonth /
getUTCDate for non-negative epoch milliseconds. -/
def civilFromDays (days : Nat) : Nat × Nat × Nat :=
  let z := days + 719468
  let era := z / 146097
  let doe := z % 146097
  let yoe := (doe - doe / 1460 + doe / 36524 - doe / 146096) / 365
  let y := yoe + era * 400
  let doy := doe - (365 * yoe + yoe / 4 - yoe / 100)
  let mp := (5 * doy + 2) / 153
  let d := doy - (153 * mp + 2) / 5 + 1
  let m := if mp < 10 then mp + 3 else mp - 9
  (if m ≤ 2 then y + 1 else y, m, d)

/-- The dateStr of the task job: YYYY-MM-DD of the shifted clock. -/
def dateStrOf (nowMs : Nat) : String :=
  let c := civilFromDays (istMs nowMs / 86400000)
  toString c.1 ++ "-" ++ pad2 c.2.1 ++ "-" ++ pad2 c.2.2

/-- A row of the habits table, the columns the habit job selects. -/
structure Habit where
  id : String
  name : String
  user_id : String
  notify_time : String
  active : Bool
deriving Repr, DecidableEq

/-- A row of the tasks table, the columns the task job selects. -/
structure Task where
  id : String
  title : String
  user_id : String
  completed : Bool
  date : String
deriving Repr, DecidableEq

/-- A row of the profiles table, the columns both jobs select. -/
structure Profile where
  id : String
  email : Option String
deriving Repr, DecidableEq

/-- The environment of one invocation: configuration secrets, store
tables with per-query error injection, the identity-provider lookup
(supabase.auth.admin.getUserById returns either an error object or the
optional email of the user record), and which recipient addresses make the
email API throw. -/
structure Env where
  serviceRoleKey : Option String
  resendApiKey : Option String
  habits : List Habit
  habitsError : Option String
  tasks : List Task
  tasksError : Option String
  profiles : List Profile
  profilesError : Option String
  adminLookup : String → Except String (Option String)
  sendFails : String → Bool

/-- The emailByUser map: each profile row with a truthy email is entered
with Map.set (a later row with the same id overwrites an earlier one);
lookup returns the value of the last such row. -/
def emailByUser (profiles : List Profile) (u : String) : Option String :=
  ((profiles.filter (fun p => p.id == u && isTruthy p.email)).getLast?).bind (·.email)

/-- Shared email resolution of both jobs: take the cached profile email
when the map has one; otherwise fall back to the identity-provider
lookup, where an error is only logged and yields no email; a resolved
email is usable only when truthy. -/
def resolveEmail (env : Env) (profilesQ : List Profile) (u : String) : Option String :=
  let email :=
    match emailByUser profilesQ u with
    | some e => some e
    | none =>
      match env.adminLookup u with
      | .error _ => none
      | .ok e => e
  if isTruthy email then email else none

/-- Helper of dedupFirst: drop elements already seen. -/
def dedupGo : List String → List String → List String
  | [], _ => []
  | x :: xs, seen => if seen.contains x then dedupGo xs seen else x :: dedupGo xs (x :: seen)

/-- Array.from(new Set(xs)): deduplication keeping the first occurrence
of each element, in encounter order. -/
def dedupFirst (xs : List String) : List String := dedupGo xs []

/-- One attempted email-send call of the habit job: the recipient, the
subject and body passed to resend.emails.send, tagged with the user id
of the habit being processed. -/
structure SentEmail where
  userId : String
  toAddr : String
  subject : String
  html : String
deriving Repr, DecidableEq

/-- The JSON response of the habit job. -/
inductive HabitResponse where
  | missingSecrets
  | noHabits (atMinute : String)
  | success (sent habitsChecked : Nat) (atMinute : String)
  | failure (error : String)
deriving Repr, DecidableEq

/-- The send call the habit job issues for habit h to a resolved email. -/
def mkHabitEmail (hh mm : String) (h : Habit) (email : String) : SentEmail :=
  { userId := h.user_id
    toAddr := email
    subject := "Reminder: " ++ h.name
    html := "<p>This is your scheduled reminder for habit: <strong>" ++ h.name ++
      "</strong> at " ++ hh ++ ":" ++ mm ++ " IST.</p>" }

/-- The per-habit loop: resolve the email, skip the habit when none
resolves, otherwise attempt the send; a throwing send is caught, so the
sent counter does not count it, and the loop continues. Returns the sent
counter and the trace of attempted sends. -/
def habitLoop (env : Env) (profilesQ : List Profile) (hh mm : String) :
    List Habit → Nat × List SentEmail
  | [] => (0, [])
  | h :: rest =>
    match resolveEmail env profilesQ h.user_id with
    | none => habitLoop env profilesQ hh mm rest
    | some email =>
      let r := habitLoop env profilesQ hh mm rest
      ((if env.sendFails email then 0 else 1) + r.1, mkHabitEmail hh mm h email :: r.2)

/-- The habits query: active = true and notify_time = currentMinute. -/
def matchedHabits (env : Env) (nowMs : Nat) : List Habit :=
  env.habits.filter (fun h => h.active && h.notify_time == currentMinuteStr nowMs)

/-- The distinct owning user ids of the matched habits, in encounter order. -/
def habitUserIds (env : Env) (nowMs : Nat) : List String :=
  dedupFirst ((matchedHabits env nowMs).map (·.user_id))

/-- The profiles query of the habit job: id in the matched user ids. -/
def habitProfilesQ (env : Env) (nowMs : Nat) : List Profile :=
  env.profiles.filter (fun p => (habitUserIds env nowMs).contains p.id)

/-- The habit reminder job (supabase/functions/send-reminders/index.ts):
check secrets, compute the current IST minute, query matching habits,
resolve emails via the profiles query with identity-provider fallback,
and send one reminder per matched habit, tolerating per-send failures.
Returns the diagnostic response and the trace of attempted sends. -/
def habitJob (env : Env) (nowMs : Nat) : HabitResponse × List SentEmail :=
  if !(isTruthy env.serviceRoleKey) || !(isTruthy env.resendApiKey) then
    (.missingSecrets, [])
  else
    match env.habitsError with
    | some e => (.failure e, [])
    | none =>
      let habits := matchedHabits env nowMs
      if habits.isEmpty then (.noHabits (currentMinuteStr nowMs), [])
      else
        match env.profilesError with
        | some e => (.failure e, [])
        | none =>
          let r := habitLoop env (habitProfilesQ env nowMs)
            (pad2 (istHour nowMs)) (pad2 (istMinute nowMs)) habits
          (.success r.1 habits.length (currentMinuteStr nowMs), r.2)

/-- One attempted email-send call of the task job, tagged with the user
id being processed; titles is the ordered list of task titles rendered
as the list items of the body. -/
structure TaskEmail where
  userId : String
  toAddr : String
  subject : String
  titles : List String
  html : String
deriving Repr, DecidableEq

/-- The JSON response of the task job. -/
inductive TaskResponse where
  | missingSecrets
  | skippedHourWindow (hour minute : Nat)
  | skippedNotTopOfHour (hour minute : Nat)
  | noTasks (date hour : String)
  | success (sent usersConsidered : Nat) (date hour : String) (pendingTasks : Nat)
  | failure (error : String)
deriving Repr, DecidableEq

/-- Lexicographic less-or-equal on character lists. -/
def lexLe : List Char → List Char → Bool
  | [], _ => true
  | _ :: _, [] => false
  | c :: cs, d :: ds => if c < d then true else if d < c then false else lexLe cs ds

/-- Case-insensitive string comparison: both strings lowercased, then
compared lexicographically. -/
def lowerLe (a b : String) : Bool :=
  lexLe (a.data.map Char.toLower) (b.data.map Char.toLower)

/-- The sort comparator: title.localeCompare(other, undefined,
sensitivity base), modelled as case-insensitive (lowercased)
lexicographic order. -/
def taskLe (a b : Task) : Bool := lowerLe a.title b.title

/-- The comparator as a relation, for the stable sort. -/
def taskRel (a b : Task) : Prop := taskLe a b = true

instance : DecidableRel taskRel := fun _ _ => inferInstanceAs (Decidable (_ = true))

/-- The pending tasks of one user in store order, sorted case-insensitively
alphabetically by title (Array.prototype.sort is a stable comparator
sort; insertion sort models it). -/
def userTasksSorted (tasks : List Task) (u : String) : List Task :=
  List.insertionSort taskRel (tasks.filter (fun t => t.user_id == u))

/-- The li items of the task email, joined with the empty separator. -/
def listHtml (ts : List Task) : String :=
  String.join (ts.map (fun t => "<li style=\"margin:4px 0;\">" ++ t.title ++ "</li>"))

/-- The html body template of the task email. -/
def taskHtml (hourLabel dateStr : String) (ts : List Task) : String :=
  "\n        <div style=\"font-family:Arial,sans-serif;font-size:14px;line-height:1.5;color:#111;\">\n          <p><strong>Hourly Task Reminder (" ++
    hourLabel ++ ":00 IST)</strong></p>\n          <p>You still have " ++
    toString ts.length ++ " pending task(s) for <strong>" ++ dateStr ++
    "</strong>:</p>\n          <ul style=\"padding-left:18px;\">" ++ listHtml ts ++
    "</ul>\n          <p style=\"margin-top:16px;font-size:12px;color:#666;\">This is an automated reminder. Mark tasks complete in your dashboard to stop receiving them.</p>\n        </div>\n      "

/-- The send call the task job issues for user u with sorted tasks ts. -/
def mkTaskEmail (hourLabel dateStr : String) (u email : String) (ts : List Task) : TaskEmail :=
  { userId := u
    toAddr := email
    subject := "Hourly Task Reminder - " ++ hourLabel ++ ":00 IST"
    titles := ts.map (·.title)
    html := taskHtml hourLabel dateStr ts }

/-- The per-user loop of the task job: resolve the email, skip the user
when none resolves, otherwise sort the tasks of that user and attempt the
send; a throwing send is caught and not counted. -/
def taskLoop (env : Env) (profilesQ : List Profile) (tasks : List Task)
    (dateStr hourLabel : String) : List String → Nat × List TaskEmail
  | [] => (0, [])
  | u :: rest =>
    match resolveEmail env profilesQ u with
    | none => taskLoop env profilesQ tasks dateStr hourLabel rest
    | some email =>
      let r := taskLoop env profilesQ tasks dateStr hourLabel rest
      ((if env.sendFails email then 0 else 1) + r.1,
        mkTaskEmail hourLabel dateStr u email (userTasksSorted tasks u) :: r.2)

/-- The tasks query: date = today (shifted clock) and completed = false. -/
def pendingOf (env : Env) (nowMs : Nat) : List Task :=
  env.tasks.filter (fun t => t.date == dateStrOf nowMs && t.completed == false)

/-- The grouping keys: distinct owning user ids of the pending tasks, in
encounter order (Map insertion order). -/
def taskUserIds (env : Env) (nowMs : Nat) : List String :=
  dedupFirst ((pendingOf env nowMs).map (·.user_id))

/-- The profiles query of the task job: id in the grouped user ids. -/
def taskProfilesQ (env : Env) (nowMs : Nat) : List Profile :=
  env.profiles.filter (fun p => (taskUserIds env nowMs).contains p.id)

/-- The hourly task reminder job: check secrets, self-restrict to the
10-22 IST window at top of hour, query the pending tasks of today, group by
user, resolve emails and send one itemized email per user, tolerating
per-send failures. Returns the diagnostic response and the trace of
attempted sends. -/
def taskJob (env : Env) (nowMs : Nat) : TaskResponse × List TaskEmail :=
  if !(isTruthy env.serviceRoleKey) || !(isTruthy env.resendApiKey) then
    (.missingSecrets, [])
  else
    let h := istHour nowMs
    let m := istMinute nowMs
    if h < 10 || 22 < h then (.skippedHourWindow h m, [])
    else if m != 0 then (.skippedNotTopOfHour h m, [])
    else
      match env.tasksError with
      | some e => (.failure e, [])
      | none =>
        let tasks := pendingOf env nowMs
        if tasks.isEmpty then (.noTasks (dateStrOf nowMs) (pad2 h), [])
        else
          let userIds := taskUserIds env nowMs
          match env.profilesError with
          | some e => (.failure e, [])
          | none =>
            let r := taskLoop env (taskProfilesQ env nowMs) tasks (dateStrOf nowMs)
              (pad2 h) userIds
            (.success r.1 userIds.length (dateStrOf nowMs) (pad2 h) tasks.length, r.2)

/-- Derived form of the habit loop trace: one attempt per habit whose
user resolves to an email. -/
def habitAttempts (env : Env) (profilesQ : List Profile) (hh mm : String)
    (hs : List Habit) : List SentEmail :=
  hs.filterMap (fun h => (resolveEmail env profilesQ h.user_id).map (mkHabitEmail hh mm h))

/-- The attempts of a full habit-job run. -/
def habitRunAttempts (env : Env) (nowMs : Nat) : List SentEmail :=
  habitAttempts env (habitProfilesQ env nowMs) (pad2 (istHour nowMs))
    (pad2 (istMinute nowMs)) (matchedHabits env nowMs)

/-- How many habit-job attempts are delivered (the email API does not throw). -/
def deliveredH (env : Env) (es : List SentEmail) : Nat :=
  (es.filter (fun e => !env.sendFails e.toAddr)).length

/-- Derived form of the task loop trace: one attempt per user who
resolves to an email. -/
def taskAttempts (env : Env) (profilesQ : List Profile) (tasks : List Task)
    (dateStr hourLabel : String) (userIds : List String) : List TaskEmail :=
  userIds.filterMap (fun u => (resolveEmail env profilesQ u).map
    (fun email => mkTaskEmail hourLabel dateStr u email (userTasksSorted tasks u)))

/-- The attempts of a full task-job run. -/
def taskRunAttempts (env : Env) (nowMs : Nat) : List TaskEmail :=
  taskAttempts env (taskProfilesQ env nowMs) (pendingOf env nowMs) (dateStrOf nowMs)
    (pad2 (istHour nowMs)) (taskUserIds env nowMs)

/-- How many task-job attempts are delivered. -/
def deliveredT (env : Env) (es : List TaskEmail) : Nat :=
  (es.filter (fun e => !env.sendFails e.toAddr)).length

/-! Helper lemmas. -/

theorem habitLoop_eq (env : Env) (pq : List Profile) (hh mm : String) (hs : List Habit) :
    habitLoop env pq hh mm hs =
      (deliveredH env (habitAttempts env pq hh mm hs), habitAttempts env pq hh mm hs) := by
  induction hs with
  | nil => simp [habitLoop, habitAttempts, deliveredH]
  | cons h rest ih =>
    cases hr : resolveEmail env pq h.user_id with
    | none => simp [habitLoop, habitAttempts, hr, ih, List.filterMap_cons]
    | some email =>
      simp only [habitLoop, habitAttempts, hr, ih, List.filterMap_cons, Option.map_some',
        deliveredH, List.filter_cons]
      cases hf : env.sendFails email <;>
        simp [hf, mkHabitEmail, habitAttempts, deliveredH, Nat.add_comm]

theorem taskLoop_eq (env : Env) (pq : List Profile) (tasks : List Task)
    (dateStr hourLabel : String) (userIds : List String) :
    taskLoop env pq tasks dateStr hourLabel userIds =
      (deliveredT env (taskAttempts env pq tasks dateStr hourLabel userIds),
        taskAttempts env pq tasks dateStr hourLabel userIds) := by
  induction userIds with
  | nil => simp [taskLoop, taskAttempts, deliveredT]
  | cons u rest ih =>
    cases hr : resolveEmail env pq u with
    | none => simp [taskLoop, taskAttempts, hr, ih, List.filterMap_cons]
    | some email =>
      simp only [taskLoop, taskAttempts, hr, ih, List.filterMap_cons, Option.map_some',
        deliveredT, List.filter_cons]
      cases hf : env.sendFails email <;>
        simp [hf, mkTaskEmail, taskAttempts, deliveredT, Nat.add_comm]

theorem mem_dedupGo : ∀ (xs seen : List String), ∀ a ∈ dedupGo xs seen, a ∈ xs ∧ a ∉ seen := by
  intro xs
  induction xs with
  | nil => intro seen a ha; simp [dedupGo] at ha
  | cons x xs ih =>
    intro seen a ha
    by_cases hc : x ∈ seen
    · have hd : dedupGo (x :: xs) seen = dedupGo xs seen := by
        simp [dedupGo, hc]
      rw [hd] at ha
      exact ⟨List.mem_cons_of_mem _ (ih seen a ha).1, (ih seen a ha).2⟩
    · have hd : dedupGo (x :: xs) seen = x :: dedupGo xs (x :: seen) := by
        simp [dedupGo, hc]
      rw [hd] at ha
      rcases List.mem_cons.mp ha with rfl | ha
      · exact ⟨List.mem_cons_self _ _, hc⟩
      · have := ih (x :: seen) a ha
        exact ⟨List.mem_cons_of_mem _ this.1, fun hs => this.2 (List.mem_cons_of_mem _ hs)⟩

theorem nodup_dedupGo : ∀ (xs seen : List String), (dedupGo xs seen).Nodup := by
  intro xs
  induction xs with
  | nil => intro seen; simp [dedupGo]
  | cons x xs ih =>
    intro seen
    by_cases hc : x ∈ seen
    · simpa [dedupGo, hc] using ih seen
    · have hd : dedupGo (x :: xs) seen = x :: dedupGo xs (x :: seen) := by
        simp [dedupGo, hc]
      rw [hd, List.nodup_cons]
      refine ⟨fun hx => ?_, ih (x :: seen)⟩
      exact (mem_dedupGo xs (x :: seen) x hx).2 (List.mem_cons_self _ _)

theorem length_dedupGo : ∀ (xs seen : List String), (dedupGo xs seen).length ≤ xs.length := by
  intro xs
  induction xs with
  | nil => intro seen; simp [dedupGo]
  | cons x xs ih =>
    intro seen
    by_cases hc : x ∈ seen
    · have hd : dedupGo (x :: xs) seen = dedupGo xs seen := by simp [dedupGo, hc]
      rw [hd]
      exact Nat.le_succ_of_le (ih seen)
    · have hd : dedupGo (x :: xs) seen = x :: dedupGo xs (x :: seen) := by
        simp [dedupGo, hc]
      rw [hd]
      simpa using Nat.succ_le_succ (ih (x :: seen))

theorem nodup_dedupFirst (xs : List String) : (dedupFirst xs).Nodup :=
  nodup_dedupGo xs []

theorem length_dedupFirst (xs : List String) : (dedupFirst xs).length ≤ xs.length :=
  length_dedupGo xs []

theorem habitJob_run (env : Env) (nowMs : Nat)
    (hk1 : isTruthy env.serviceRoleKey = true) (hk2 : isTruthy env.resendApiKey = true)
    (he : env.habitsError = none) (hp : env.profilesError = none)
    (hm : matchedHabits env nowMs ≠ []) :
    habitJob env nowMs =
      (.success (deliveredH env (habitRunAttempts env nowMs))
        (matchedHabits env nowMs).length (currentMinuteStr nowMs),
       habitRunAttempts env nowMs) := by
  simp [habitJob, hk1, hk2, he, hp, List.isEmpty_iff, hm, habitLoop_eq, habitRunAttempts]

theorem habitJob_success_inv (env : Env) (nowMs : Nat) (s c : Nat) (a : String)
    (h : (habitJob env nowMs).1 = .success s c a) :
    env.habitsError = none ∧ env.profilesError = none ∧
      s = deliveredH env (habitRunAttempts env nowMs) ∧
      c = (matchedHabits env nowMs).length ∧
      (habitJob env nowMs).2 = habitRunAttempts env nowMs := by
  cases hk : (!(isTruthy env.serviceRoleKey) || !(isTruthy env.resendApiKey)) with
  | true => simp [habitJob, hk] at h
  | false =>
    cases he : env.habitsError with
    | some e => simp [habitJob, hk, he] at h
    | none =>
      cases hm : (matchedHabits env nowMs).isEmpty with
      | true => simp [habitJob, hk, he, hm] at h
      | false =>
        cases hp : env.profilesError with
        | some e => simp [habitJob, hk, he, hm, hp] at h
        | none =>
          simp only [habitJob, hk, he, hm, hp, Bool.false_eq_true, if_false,
            habitLoop_eq, HabitResponse.success.injEq] at h
          refine ⟨rfl, rfl, h.1.symm, h.2.1.symm, ?_⟩
          simp [habitJob, hk, he, hm, hp, habitLoop_eq, habitRunAttempts]

theorem habitJob_snd_cases (env : Env) (nowMs : Nat) :
    (habitJob env nowMs).2 = [] ∨ (habitJob env nowMs).2 = habitRunAttempts env nowMs := by
  cases hk : (!(isTruthy env.serviceRoleKey) || !(isTruthy env.resendApiKey)) with
  | true => left; simp [habitJob, hk]
  | false =>
    cases he : env.habitsError with
    | some e => left; simp [habitJob, hk, he]
    | none =>
      cases hm : (matchedHabits env nowMs).isEmpty with
      | true => left; simp [habitJob, hk, he, hm]
      | false =>
        cases hp : env.profilesError with
        | some e => left; simp [habitJob, hk, he, hm, hp]
        | none => right; simp [habitJob, hk, he, hm, hp, habitLoop_eq, habitRunAttempts]

theorem taskJob_guard_hour (env : Env) (nowMs : Nat)
    (hk1 : isTruthy env.serviceRoleKey = true) (hk2 : isTruthy env.resendApiKey = true)
    (hh : istHour nowMs < 10 ∨ 22 < istHour nowMs) :
    taskJob env nowMs = (.skippedHourWindow (istHour nowMs) (istMinute nowMs), []) := by
  rcases hh with hh | hh <;> simp [taskJob, hk1, hk2, hh]

theorem taskJob_guard_minute (env : Env) (nowMs : Nat)
    (hk1 : isTruthy env.serviceRoleKey = true) (hk2 : isTruthy env.resendApiKey = true)
    (h10 : 10 ≤ istHour nowMs) (h22 : istHour nowMs ≤ 22) (hm : istMinute nowMs ≠ 0) :
    taskJob env nowMs = (.skippedNotTopOfHour (istHour nowMs) (istMinute nowMs), []) := by
  simp [taskJob, hk1, hk2, Nat.not_lt.mpr h10, Nat.not_lt.mpr h22, hm]

theorem taskJob_run (env : Env) (nowMs : Nat)
    (hk1 : isTruthy env.serviceRoleKey = true) (hk2 : isTruthy env.resendApiKey = true)
    (h10 : 10 ≤ istHour nowMs) (h22 : istHour nowMs ≤ 22) (hm : istMinute nowMs = 0)
    (hte : env.tasksError = none) (hne : pendingOf env nowMs ≠ [])
    (hpe : env.profilesError = none) :
    taskJob env nowMs =
      (.success (deliveredT env (taskRunAttempts env nowMs))
        (taskUserIds env nowMs).length (dateStrOf nowMs) (pad2 (istHour nowMs))
        (pendingOf env nowMs).length,
       taskRunAttempts env nowMs) := by
  simp [taskJob, hk1, hk2, Nat.not_lt.mpr h10, Nat.not_lt.mpr h22, hm, hte, hpe,
    List.isEmpty_iff, hne, taskLoop_eq, taskRunAttempts]

theorem taskJob_success_inv (env : Env) (nowMs : Nat) (s u : Nat) (d hr : String) (p : Nat)
    (h : (taskJob env nowMs).1 = .success s u d hr p) :
    s = deliveredT env (taskRunAttempts env nowMs) ∧
      u = (taskUserIds env nowMs).length ∧
      p = (pendingOf env nowMs).length ∧
      (taskJob env nowMs).2 = taskRunAttempts env nowMs := by
  cases hk : (!(isTruthy env.serviceRoleKey) || !(isTruthy env.resendApiKey)) with
  | true => simp [taskJob, hk] at h
  | false =>
    cases hg : (decide (istHour nowMs < 10) || decide (22 < istHour nowMs)) with
    | true => simp [taskJob, hk, hg] at h
    | false =>
      cases hmi : (istMinute nowMs != 0) with
      | true => simp [taskJob, hk, hg, hmi] at h
      | false =>
        cases hte : env.tasksError with
        | some e => simp [taskJob, hk, hg, hmi, hte] at h
        | none =>
          cases hne : (pendingOf env nowMs).isEmpty with
          | true => simp [taskJob, hk, hg, hmi, hte, hne] at h
          | false =>
            cases hpe : env.profilesError with
            | some e => simp [taskJob, hk, hg, hmi, hte, hne, hpe] at h
            | none =>
              simp only [taskJob, hk, hg, hmi, hte, hne, hpe, Bool.false_eq_true, if_false,
                taskLoop_eq, TaskResponse.success.injEq] at h
              refine ⟨h.1.symm, h.2.1.symm, h.2.2.2.2.symm, ?_⟩
              simp [taskJob, hk, hg, hmi, hte, hne, hpe, taskLoop_eq, taskRunAttempts]

theorem taskJob_snd_cases (env : Env) (nowMs : Nat) :
    (taskJob env nowMs).2 = [] ∨ (taskJob env nowMs).2 = taskRunAttempts env nowMs := by
  cases hk : (!(isTruthy env.serviceRoleKey) || !(isTruthy env.resendApiKey)) with
  | true => left; simp [taskJob, hk]
  | false =>
    cases hg : (decide (istHour nowMs < 10) || decide (22 < istHour nowMs)) with
    | true => left; simp [taskJob, hk, hg]
    | false =>
      cases hmi : (istMinute nowMs != 0) with
      | true => left; simp [taskJob, hk, hg, hmi]
      | false =>
        cases hte : env.tasksError with
        | some e => left; simp [taskJob, hk, hg, hmi, hte]
        | none =>
          cases hne : (pendingOf env nowMs).isEmpty with
          | true => left; simp [taskJob, hk, hg, hmi, hte, hne]
          | false =>
            cases hpe : env.profilesError with
            | some e => left; simp [taskJob, hk, hg, hmi, hte, hne, hpe]
            | none => right; simp [taskJob, hk, hg, hmi, hte, hne, hpe, taskLoop_eq, taskRunAttempts]

theorem lexLe_trans : ∀ (as bs cs : List Char),
    lexLe as bs = true → lexLe bs cs = true → lexLe as cs = true
  | [], _, _, _, _ => rfl
  | _ :: _, [], _, h, _ => by simp [lexLe] at h
  | _ :: _, _ :: _, [], _, h => by simp [lexLe] at h
  | a :: as, b :: bs, c :: cs, h1, h2 => by
    simp only [lexLe] at h1 h2 ⊢
    rcases lt_trichotomy a b with hab | hab | hab
    · rcases lt_trichotomy b c with hbc | hbc | hbc
      · simp [lt_trans hab hbc]
      · subst hbc; simp [hab]
      · rw [if_neg (lt_asymm hbc), if_pos hbc] at h2; exact absurd h2 (by simp)
    · subst hab
      rcases lt_trichotomy a c with hbc | hbc | hbc
      · simp [hbc]
      · subst hbc
        simp only [lt_irrefl, if_false] at h1 h2 ⊢
        exact lexLe_trans as bs cs h1 h2
      · rw [if_neg (lt_asymm hbc), if_pos hbc] at h2; exact absurd h2 (by simp)
    · rw [if_neg (lt_asymm hab), if_pos hab] at h1; exact absurd h1 (by simp)

theorem lexLe_total : ∀ (as bs : List Char), lexLe as bs = true ∨ lexLe bs as = true
  | [], _ => Or.inl rfl
  | _ :: _, [] => Or.inr rfl
  | a :: as, b :: bs => by
    simp only [lexLe]
    rcases lt_trichotomy a b with hab | hab | hab
    · left; simp [hab]
    · subst hab
      simp only [lt_irrefl, if_false]
      exact lexLe_total as bs
    · right; simp [hab]

theorem taskLe_trans (a b c : Task) (h1 : taskLe a b = true) (h2 : taskLe b c = true) :
    taskLe a c = true :=
  lexLe_trans _ _ _ h1 h2

theorem taskLe_total (a b : Task) : (taskLe a b || taskLe b a) = true := by
  rcases lexLe_total (a.title.data.map Char.toLower) (b.title.data.map Char.toLower) with h | h <;>
    simp [taskLe, lowerLe, h]

instance : IsTrans Task taskRel := ⟨fun a b c => taskLe_trans a b c⟩

instance : IsTotal Task taskRel := ⟨fun a b => by
  have := taskLe_total a b
  rcases Bool.or_eq_true_iff.mp this with h | h
  · exact Or.inl h
  · exact Or.inr h⟩

theorem map_userId_taskAttempts_sublist (env : Env) (pq : List Profile) (tasks : List Task)
    (dateStr hourLabel : String) :
    ∀ userIds : List String,
      List.Sublist ((taskAttempts env pq tasks dateStr hourLabel userIds).map (·.userId))
        userIds := by
  intro userIds
  induction userIds with
  | nil => simp [taskAttempts]
  | cons u rest ih =>
    cases hr : resolveEmail env pq u with
    | none =>
      simp only [taskAttempts, List.filterMap_cons, hr]
      exact ih.cons u
    | some email =>
      simp only [taskAttempts, List.filterMap_cons, hr, Option.map_some', List.map_cons]
      exact ih.cons₂ u

/-! Concrete reference instants and store states used in the scenario
theorems and in the hypothesis witnesses. -/

/-- An epoch instant whose IST wall clock reads 14:00:00. -/
def t1400 : Nat := 30600000

/-- An instant one second later, inside the same IST minute 14:00. -/
def t1400b : Nat := 30601000

/-- An instant whose IST wall clock reads 09:00:00. -/
def t0900 : Nat := 12600000

/-- An instant whose IST wall clock reads 23:00:00. -/
def t2300 : Nat := 63000000

/-- An instant whose IST wall clock reads 14:17:00. -/
def t1417 : Nat := 31620000

/-- The end-to-end scenario store: one active habit Meditate with
notify_time 14:00:00 owned by user U whose profile email is u@x.com. -/
def envMeditate : Env where
  serviceRoleKey := some "service-role-key"
  resendApiKey := some "resend-key"
  habits := [{ id := "h1", name := "Meditate", user_id := "U",
               notify_time := "14:00:00", active := true }]
  habitsError := none
  tasks := []
  tasksError := none
  profiles := [{ id := "U", email := some "u@x.com" }]
  profilesError := none
  adminLookup := fun _ => .ok none
  sendFails := fun _ => false

/-- A store with two pending tasks Banana and apple of the one user U on
1970-01-01 (the IST day of t1400). -/
def envTasks : Env where
  serviceRoleKey := some "service-role-key"
  resendApiKey := some "resend-key"
  habits := []
  habitsError := none
  tasks := [{ id := "t1", title := "Banana", user_id := "U",
              completed := false, date := "1970-01-01" },
            { id := "t2", title := "apple", user_id := "U",
              completed := false, date := "1970-01-01" }]
  tasksError := none
  profiles := [{ id := "U", email := some "u@x.com" }]
  profilesError := none
  adminLookup := fun _ => .ok none
  sendFails := fun _ => false

/-- Two matched habits of two users where sending to the first resolved
address throws. -/
def envPartial : Env where
  serviceRoleKey := some "service-role-key"
  resendApiKey := some "resend-key"
  habits := [{ id := "h1", name := "Meditate", user_id := "U1",
               notify_time := "14:00:00", active := true },
             { id := "h2", name := "Run", user_id := "U2",
               notify_time := "14:00:00", active := true }]
  habitsError := none
  tasks := []
  tasksError := none
  profiles := [{ id := "U1", email := some "a@x.com" },
               { id := "U2", email := some "b@x.com" }]
  profilesError := none
  adminLookup := fun _ => .ok none
  sendFails := fun e => e == "a@x.com"

/-- Two pending tasks of two users where sending to the first resolved
address throws. -/
def envTasksPartial : Env where
  serviceRoleKey := some "service-role-key"
  resendApiKey := some "resend-key"
  habits := []
  habitsError := none
  tasks := [{ id := "t1", title := "Pay rent", user_id := "U1",
              completed := false, date := "1970-01-01" },
            { id := "t2", title := "Call mom", user_id := "U2",
              completed := false, date := "1970-01-01" }]
  tasksError := none
  profiles := [{ id := "U1", email := some "a@x.com" },
               { id := "U2", email := some "b@x.com" }]
  profilesError := none
  adminLookup := fun _ => .ok none
  sendFails := fun e => e == "a@x.com"

/-- One matched habit whose user has no profile row and whose
identity-provider lookup fails with an error object. -/
def envAdminErr : Env where
  serviceRoleKey := some "service-role-key"
  resendApiKey := some "resend-key"
  habits := [{ id := "h1", name := "Meditate", user_id := "U",
               notify_time := "14:00:00", active := true }]
  habitsError := none
  tasks := []
  tasksError := none
  profiles := []
  profilesError := none
  adminLookup := fun _ => .error "boom"
  sendFails := fun _ => false

/-- One matched habit whose user has no profile email and whose
identity-provider fallback returns no email. -/
def envNoEmail : Env where
  serviceRoleKey := some "service-role-key"
  resendApiKey := some "resend-key"
  habits := [{ id := "h1", name := "Meditate", user_id := "U",
               notify_time := "14:00:00", active := true }]
  habitsError := none
  tasks := []
  tasksError := none
  profiles := [{ id := "U", email := none }]
  profilesError := none
  adminLookup := fun _ => .ok none
  sendFails := fun _ => false

/-- A store whose habits query fails. -/
def envHabitsErr : Env where
  serviceRoleKey := some "service-role-key"
  resendApiKey := some "resend-key"
  habits := []
  habitsError := some "db down"
  tasks := []
  tasksError := none
  profiles := []
  profilesError := none
  adminLookup := fun _ => .ok none
  sendFails := fun _ => false

/-- An environment missing the service-role credential. -/
def envNoKey : Env where
  serviceRoleKey := none
  resendApiKey := some "resend-key"
  habits := [{ id := "h1", name := "Meditate", user_id := "U",
               notify_time := "14:00:00", active := true }]
  habitsError := none
  tasks := [{ id := "t1", title := "Pay rent", user_id := "U",
              completed := false, date := "1970-01-01" }]
  tasksError := none
  profiles := [{ id := "U", email := some "u@x.com" }]
  profilesError := none
  adminLookup := fun _ => .ok none
  sendFails := fun _ => false

theorem taskJob_proceeds (env : Env) (nowMs : Nat)
    (hk1 : isTruthy env.serviceRoleKey = true) (hk2 : isTruthy env.resendApiKey = true)
    (h10 : 10 ≤ istHour nowMs) (h22 : istHour nowMs ≤ 22) (hm : istMinute nowMs = 0) :
    ∀ a b : Nat, (taskJob env nowMs).1 ≠ .missingSecrets ∧
      (taskJob env nowMs).1 ≠ .skippedHourWindow a b ∧
      (taskJob env nowMs).1 ≠ .skippedNotTopOfHour a b := by
  intro a b
  cases hte : env.tasksError with
  | some e => simp [taskJob, hk1, hk2, Nat.not_lt.mpr h10, Nat.not_lt.mpr h22, hm, hte]
  | none =>
    cases hne : (pendingOf env nowMs).isEmpty with
    | true => simp [taskJob, hk1, hk2, Nat.not_lt.mpr h10, Nat.not_lt.mpr h22, hm, hte, hne]
    | false =>
      cases hpe : env.profilesError with
      | some e =>
        simp [taskJob, hk1, hk2, Nat.not_lt.mpr h10, Nat.not_lt.mpr h22, hm, hte, hne, hpe]
      | none =>
        simp [taskJob, hk1, hk2, Nat.not_lt.mpr h10, Nat.not_lt.mpr h22, hm, hte, hne, hpe,
          taskLoop_eq]

/-! The claims. -/

/-- Claim C1: at reference time 14:00:00 with exactly one active habit
Meditate at notify_time 14:00:00 owned by a user whose profile email is
u@x.com, the habit job responds with sent 1 and habitsChecked 1 and
attempts exactly one email to u@x.com whose subject contains Meditate;
in general every success response reports sent = number of emails
delivered and habitsChecked = number of matched habits. -/
theorem c1_habit_dispatch_end_to_end :
    (habitJob envMeditate t1400 =
        (.success 1 1 "14:00:00",
          [{ userId := "U", toAddr := "u@x.com", subject := "Reminder: Meditate",
             html := "<p>This is your scheduled reminder for habit: <strong>Meditate</strong> at 14:00 IST.</p>" }]) ∧
      (∃ pre post, "Reminder: Meditate" = pre ++ "Meditate" ++ post)) ∧
    ∀ (env : Env) (nowMs s c : Nat) (a : String),
      (habitJob env nowMs).1 = .success s c a →
        s = deliveredH env (habitJob env nowMs).2 ∧
        c = (matchedHabits env nowMs).length := by
  refine ⟨⟨by decide, ⟨"Reminder: ", "", by decide⟩⟩, ?_⟩
  intro env nowMs s c a h
  obtain ⟨-, -, hs, hc, h2⟩ := habitJob_success_inv env nowMs s c a h
  exact ⟨by rw [h2, hs], hc⟩

/-- Witness for C1: the general count property applied to the concrete
end-to-end run. -/
theorem c1_habit_dispatch_end_to_end_witness :
    (habitJob envMeditate t1400).1 = .success 1 1 "14:00:00" ∧
      (1 = deliveredH envMeditate (habitJob envMeditate t1400).2 ∧
        1 = (matchedHabits envMeditate t1400).length) :=
  ⟨by decide, c1_habit_dispatch_end_to_end.2 envMeditate t1400 1 1 "14:00:00" (by decide)⟩

/-- Claim C2: every email the habit job attempts originates from a habit
that is active and whose notify_time equals the current IST minute
(hh:mm:00); hence a habit that is inactive, or scheduled for a different
minute, never triggers an email on that invocation. -/
theorem c2_only_matching_habits_emailed :
    ∀ (env : Env) (nowMs : Nat), ∀ e ∈ (habitJob env nowMs).2,
      ∃ h, h ∈ env.habits ∧ h.active = true ∧ h.notify_time = currentMinuteStr nowMs ∧
        e.userId = h.user_id ∧ e.subject = "Reminder: " ++ h.name := by
  intro env nowMs e he
  rcases habitJob_snd_cases env nowMs with h2 | h2
  · rw [h2] at he; simp at he
  · rw [h2] at he
    unfold habitRunAttempts habitAttempts at he
    rw [List.mem_filterMap] at he
    obtain ⟨h, hm, hmap⟩ := he
    rw [Option.map_eq_some'] at hmap
    obtain ⟨email, hre, hmk⟩ := hmap
    unfold matchedHabits at hm
    obtain ⟨hin, hpred⟩ := List.mem_filter.mp hm
    rw [Bool.and_eq_true] at hpred
    refine ⟨h, hin, hpred.1, by simpa using hpred.2, ?_, ?_⟩ <;> rw [← hmk] <;> rfl

/-- Witness for C2: the attribution property applied to the email of the
concrete end-to-end run. -/
theorem c2_only_matching_habits_emailed_witness :
    ∃ h, h ∈ envMeditate.habits ∧ h.active = true ∧
      h.notify_time = currentMinuteStr t1400 ∧
      ({ userId := "U", toAddr := "u@x.com", subject := "Reminder: Meditate",
         html := "<p>This is your scheduled reminder for habit: <strong>Meditate</strong> at 14:00 IST.</p>" } : SentEmail).userId = h.user_id ∧
      ({ userId := "U", toAddr := "u@x.com", subject := "Reminder: Meditate",
         html := "<p>This is your scheduled reminder for habit: <strong>Meditate</strong> at 14:00 IST.</p>" } : SentEmail).subject = "Reminder: " ++ h.name :=
  c2_only_matching_habits_emailed envMeditate t1400 _ (by decide)

/-- Claim C3: whenever the IST hour is outside 10-22 or the minute is
not 0, the task job returns the corresponding skipped response with no
email attempts, an outcome fully determined by the clock alone and hence
independent of the store; in particular hour 9 and hour 23 always skip,
14:17 skips, and at 14:00 the job proceeds past both guards. -/
theorem c3_task_job_self_guard :
    ∀ (env : Env) (nowMs : Nat),
      isTruthy env.serviceRoleKey = true → isTruthy env.resendApiKey = true →
      (istHour nowMs < 10 ∨ 22 < istHour nowMs →
        taskJob env nowMs = (.skippedHourWindow (istHour nowMs) (istMinute nowMs), [])) ∧
      (10 ≤ istHour nowMs → istHour nowMs ≤ 22 → istMinute nowMs ≠ 0 →
        taskJob env nowMs = (.skippedNotTopOfHour (istHour nowMs) (istMinute nowMs), [])) ∧
      (istHour nowMs = 9 →
        taskJob env nowMs = (.skippedHourWindow 9 (istMinute nowMs), [])) ∧
      (istHour nowMs = 23 →
        taskJob env nowMs = (.skippedHourWindow 23 (istMinute nowMs), [])) ∧
      (istHour nowMs = 14 → istMinute nowMs = 17 →
        taskJob env nowMs = (.skippedNotTopOfHour 14 17, [])) ∧
      (istHour nowMs = 14 → istMinute nowMs = 0 →
        ∀ a b : Nat, (taskJob env nowMs).1 ≠ .missingSecrets ∧
          (taskJob env nowMs).1 ≠ .skippedHourWindow a b ∧
          (taskJob env nowMs).1 ≠ .skippedNotTopOfHour a b) := by
  intro env nowMs hk1 hk2
  refine ⟨taskJob_guard_hour env nowMs hk1 hk2,
    taskJob_guard_minute env nowMs hk1 hk2, ?_, ?_, ?_, ?_⟩
  · intro h9
    rw [taskJob_guard_hour env nowMs hk1 hk2 (Or.inl (by omega)), h9]
  · intro h23
    rw [taskJob_guard_hour env nowMs hk1 hk2 (Or.inr (by omega)), h23]
  · intro h14 h17
    rw [taskJob_guard_minute env nowMs hk1 hk2 (by omega) (by omega) (by omega), h14, h17]
  · intro h14 h0
    exact taskJob_proceeds env nowMs hk1 hk2 (by omega) (by omega) h0

/-- Witness for C3: the guard applied at concrete instants reading
09:00, 23:00, 14:17 and 14:00 IST. -/
theorem c3_task_job_self_guard_witness :
    taskJob envTasks t0900 = (.skippedHourWindow 9 0, []) ∧
      taskJob envTasks t2300 = (.skippedHourWindow 23 0, []) ∧
      taskJob envTasks t1417 = (.skippedNotTopOfHour 14 17, []) ∧
      (taskJob envTasks t1400).1 ≠ .skippedHourWindow 14 0 ∧
      (taskJob envTasks t1400).1 ≠ .skippedNotTopOfHour 14 0 :=
  ⟨(c3_task_job_self_guard envTasks t0900 (by decide) (by decide)).2.2.1 (by decide),
   (c3_task_job_self_guard envTasks t2300 (by decide) (by decide)).2.2.2.1 (by decide),
   (c3_task_job_self_guard envTasks t1417 (by decide) (by decide)).2.2.2.2.1 (by decide) (by decide),
   ((c3_task_job_self_guard envTasks t1400 (by decide) (by decide)).2.2.2.2.2 (by decide) (by decide) 14 0).2.1,
   ((c3_task_job_self_guard envTasks t1400 (by decide) (by decide)).2.2.2.2.2 (by decide) (by decide) 14 0).2.2⟩

/-- Claim C5 counterexample: one matched habit whose user has no profile
row and whose identity-provider lookup returns an error object; the
habit job still returns a success response (sent 0, habitsChecked 1),
not a failure, so an identity-lookup error does not abort the
invocation as the claim states. -/
theorem c5_counterexample_admin_error_not_fatal :
    envAdminErr.adminLookup "U" = .error "boom" ∧
      habitJob envAdminErr t1400 = (.success 0 1 "14:00:00", []) :=
  ⟨rfl, by decide⟩

/-- Claim C5 (amended): an error from the store habits query or profiles
query aborts the whole habit-job invocation with a failure result
carrying the error message; an identity-provider lookup error is only
logged and the habit skipped, and once both store queries succeed the
invocation cannot produce a failure result. -/
theorem c5_amended_store_errors_abort :
    ∀ (env : Env) (nowMs : Nat),
      isTruthy env.serviceRoleKey = true → isTruthy env.resendApiKey = true →
      (∀ e, env.habitsError = some e → habitJob env nowMs = (.failure e, [])) ∧
      (env.habitsError = none → matchedHabits env nowMs ≠ [] →
        ∀ e, env.profilesError = some e → habitJob env nowMs = (.failure e, [])) ∧
      (env.habitsError = none → env.profilesError = none →
        ∀ msg, (habitJob env nowMs).1 ≠ .failure msg) := by
  intro env nowMs hk1 hk2
  refine ⟨?_, ?_, ?_⟩
  · intro e he; simp [habitJob, hk1, hk2, he]
  · intro he hm e hp; simp [habitJob, hk1, hk2, he, hp, List.isEmpty_iff, hm]
  · intro he hp msg
    cases hm : (matchedHabits env nowMs).isEmpty with
    | true => simp [habitJob, hk1, hk2, he, hp, hm]
    | false => simp [habitJob, hk1, hk2, he, hp, hm, habitLoop_eq]

/-- Witness for C5 (amended): a failing habits query aborts with its
message. -/
theorem c5_amended_store_errors_abort_witness :
    habitJob envHabitsErr t1400 = (.failure "db down", []) :=
  (c5_amended_store_errors_abort envHabitsErr t1400 (by decide) (by decide)).1
    "db down" (by decide)

/-- Claim C8: with a falsy service-role key or email API key, either job
returns the missing-secrets 500 response: the result equals this
constant whatever the store contents, so no store access influences it
and no email is attempted. -/
theorem c8_missing_credentials_immediate_500 :
    ∀ (env : Env) (nowMs : Nat),
      isTruthy env.serviceRoleKey = false ∨ isTruthy env.resendApiKey = false →
      habitJob env nowMs = (.missingSecrets, []) ∧
        taskJob env nowMs = (.missingSecrets, []) := by
  intro env nowMs hk
  rcases hk with hk | hk <;> exact ⟨by simp [habitJob, hk], by simp [taskJob, hk]⟩

/-- Witness for C8: both jobs at an environment missing the service-role
key. -/
theorem c8_missing_credentials_immediate_500_witness :
    habitJob envNoKey t1400 = (.missingSecrets, []) ∧
      taskJob envNoKey t1400 = (.missingSecrets, []) :=
  c8_missing_credentials_immediate_500 envNoKey t1400 (Or.inl (by decide))

/-- Claim C4: every email the task job attempts belongs to one user id,
its item list is exactly the pending tasks of that user (a permutation
of their filtered titles, nothing else) sorted case-insensitively
alphabetically; concretely, with pending titles Banana and apple of one
user the rendered order is apple then Banana. -/
theorem c4_tasks_grouped_and_sorted :
    (∀ (env : Env) (nowMs : Nat), ∀ e ∈ (taskJob env nowMs).2,
      ∃ u, e.userId = u ∧
        resolveEmail env (taskProfilesQ env nowMs) u = some e.toAddr ∧
        e.titles = (userTasksSorted (pendingOf env nowMs) u).map (·.title) ∧
        e.titles.Perm (((pendingOf env nowMs).filter (fun t => t.user_id == u)).map (·.title)) ∧
        List.Pairwise (fun s t => lowerLe s t = true) e.titles) ∧
    (taskJob envTasks t1400).1 = .success 1 1 "1970-01-01" "14" 2 ∧
    (taskJob envTasks t1400).2.map (·.titles) = [["apple", "Banana"]] := by
  refine ⟨?_, by decide, by decide⟩
  intro env nowMs e he
  rcases taskJob_snd_cases env nowMs with h2 | h2
  · rw [h2] at he; simp at he
  · rw [h2] at he
    unfold taskRunAttempts taskAttempts at he
    rw [List.mem_filterMap] at he
    obtain ⟨u, hm, hmap⟩ := he
    rw [Option.map_eq_some'] at hmap
    obtain ⟨email, hre, hmk⟩ := hmap
    refine ⟨u, by rw [← hmk]; rfl, by rw [← hmk]; exact hre, by rw [← hmk]; rfl, ?_, ?_⟩
    · have hperm := List.perm_insertionSort taskRel
        ((pendingOf env nowMs).filter (fun t => t.user_id == u))
      have : e.titles = (userTasksSorted (pendingOf env nowMs) u).map (·.title) := by
        rw [← hmk]; rfl
      rw [this]
      exact List.Perm.map _ hperm
    · have hsorted := List.sorted_insertionSort taskRel
        ((pendingOf env nowMs).filter (fun t => t.user_id == u))
      have : e.titles = (userTasksSorted (pendingOf env nowMs) u).map (·.title) := by
        rw [← hmk]; rfl
      rw [this]
      exact List.Pairwise.map _ (fun a b hab => hab) hsorted

set_option maxRecDepth 4000 in
/-- Witness for C4: the grouping and ordering property applied to the
email of the concrete Banana and apple run. -/
theorem c4_tasks_grouped_and_sorted_witness :
    ∃ u, (mkTaskEmail "14" "1970-01-01" "U" "u@x.com"
        (userTasksSorted (pendingOf envTasks t1400) "U")).userId = u ∧
      resolveEmail envTasks (taskProfilesQ envTasks t1400) u =
        some (mkTaskEmail "14" "1970-01-01" "U" "u@x.com"
          (userTasksSorted (pendingOf envTasks t1400) "U")).toAddr ∧
      (mkTaskEmail "14" "1970-01-01" "U" "u@x.com"
        (userTasksSorted (pendingOf envTasks t1400) "U")).titles =
        (userTasksSorted (pendingOf envTasks t1400) u).map (·.title) ∧
      (mkTaskEmail "14" "1970-01-01" "U" "u@x.com"
        (userTasksSorted (pendingOf envTasks t1400) "U")).titles.Perm
        (((pendingOf envTasks t1400).filter (fun t => t.user_id == u)).map (·.title)) ∧
      List.Pairwise (fun s t => lowerLe s t = true)
        (mkTaskEmail "14" "1970-01-01" "U" "u@x.com"
          (userTasksSorted (pendingOf envTasks t1400) "U")).titles :=
  c4_tasks_grouped_and_sorted.1 envTasks t1400 _ (by decide)

/-- Claim C6: in both jobs, once the loop is reached the invocation
always returns a success response; a throwing send is simply not counted
(sent counts exactly the attempts whose recipient the email API accepts)
and the trace of attempted sends is the same whatever subset of
recipients fail, so a failure for one recipient never prevents the
attempts for the later ones. -/
theorem c6_per_recipient_failure_tolerated :
    ∀ (env : Env) (nowMs : Nat),
      isTruthy env.serviceRoleKey = true → isTruthy env.resendApiKey = true →
      (env.habitsError = none → env.profilesError = none → matchedHabits env nowMs ≠ [] →
        habitJob env nowMs =
          (.success (deliveredH env (habitRunAttempts env nowMs))
            (matchedHabits env nowMs).length (currentMinuteStr nowMs),
           habitRunAttempts env nowMs) ∧
        ∀ sf, (habitJob { env with sendFails := sf } nowMs).2 = habitRunAttempts env nowMs) ∧
      (env.tasksError = none → env.profilesError = none → 10 ≤ istHour nowMs →
        istHour nowMs ≤ 22 → istMinute nowMs = 0 → pendingOf env nowMs ≠ [] →
        taskJob env nowMs =
          (.success (deliveredT env (taskRunAttempts env nowMs))
            (taskUserIds env nowMs).length (dateStrOf nowMs) (pad2 (istHour nowMs))
            (pendingOf env nowMs).length,
           taskRunAttempts env nowMs) ∧
        ∀ sf, (taskJob { env with sendFails := sf } nowMs).2 = taskRunAttempts env nowMs) := by
  intro env nowMs hk1 hk2
  constructor
  · intro he hp hm
    refine ⟨habitJob_run env nowMs hk1 hk2 he hp hm, ?_⟩
    intro sf
    rw [habitJob_run { env with sendFails := sf } nowMs hk1 hk2 he hp hm]
    rfl
  · intro hte hpe h10 h22 hm0 hne
    refine ⟨taskJob_run env nowMs hk1 hk2 h10 h22 hm0 hte hne hpe, ?_⟩
    intro sf
    rw [taskJob_run { env with sendFails := sf } nowMs hk1 hk2 h10 h22 hm0 hte hne hpe]
    rfl

/-- Witness for C6: two matched recipients in each job where the first
send throws; each job still returns success with sent 1 and both
attempts in the trace. -/
theorem c6_per_recipient_failure_tolerated_witness :
    habitJob envPartial t1400 =
      (.success (deliveredH envPartial (habitRunAttempts envPartial t1400))
        (matchedHabits envPartial t1400).length (currentMinuteStr t1400),
       habitRunAttempts envPartial t1400) ∧
    taskJob envTasksPartial t1400 =
      (.success (deliveredT envTasksPartial (taskRunAttempts envTasksPartial t1400))
        (taskUserIds envTasksPartial t1400).length (dateStrOf t1400)
        (pad2 (istHour t1400)) (pendingOf envTasksPartial t1400).length,
       taskRunAttempts envTasksPartial t1400) :=
  ⟨((c6_per_recipient_failure_tolerated envPartial t1400 (by decide) (by decide)).1
      (by decide) (by decide) (by decide)).1,
   ((c6_per_recipient_failure_tolerated envTasksPartial t1400 (by decide) (by decide)).2
      (by decide) (by decide) (by decide) (by decide) (by decide) (by decide)).1⟩

/-- Claim C7: a matched habit whose user has no cached profile email and
whose identity-provider fallback returns no email produces no attempt
for that user; the run still ends in the success response built from the
remaining attempts (the trace is exactly the resolvable attempts, so the
sent count is reduced and other habits are unaffected). -/
theorem c7_unresolvable_email_skipped :
    ∀ (env : Env) (nowMs : Nat) (h : Habit),
      isTruthy env.serviceRoleKey = true → isTruthy env.resendApiKey = true →
      env.habitsError = none → env.profilesError = none →
      h ∈ matchedHabits env nowMs →
      emailByUser (habitProfilesQ env nowMs) h.user_id = none →
      env.adminLookup h.user_id = .ok none →
      habitJob env nowMs =
        (.success (deliveredH env (habitRunAttempts env nowMs))
          (matchedHabits env nowMs).length (currentMinuteStr nowMs),
         habitRunAttempts env nowMs) ∧
      ∀ e ∈ (habitJob env nowMs).2, e.userId ≠ h.user_id := by
  intro env nowMs h hk1 hk2 he hp hmem hprof hadmin
  have hm : matchedHabits env nowMs ≠ [] := List.ne_nil_of_mem hmem
  have hrun := habitJob_run env nowMs hk1 hk2 he hp hm
  have hre : resolveEmail env (habitProfilesQ env nowMs) h.user_id = none := by
    simp [resolveEmail, hprof, hadmin, isTruthy]
  refine ⟨hrun, ?_⟩
  intro e hee heq
  rw [hrun] at hee
  unfold habitRunAttempts habitAttempts at hee
  rw [List.mem_filterMap] at hee
  obtain ⟨h2, hm2, hmap⟩ := hee
  rw [Option.map_eq_some'] at hmap
  obtain ⟨email, hre2, hmk⟩ := hmap
  have huid : h2.user_id = h.user_id := by rw [← heq, ← hmk]; rfl
  rw [huid, hre] at hre2
  exact Option.noConfusion hre2

/-- Witness for C7: the skip property applied to the store with one
matched habit and no resolvable email; sent is 0 and the trace empty. -/
theorem c7_unresolvable_email_skipped_witness :
    habitJob envNoEmail t1400 =
      (.success (deliveredH envNoEmail (habitRunAttempts envNoEmail t1400))
        (matchedHabits envNoEmail t1400).length (currentMinuteStr t1400),
       habitRunAttempts envNoEmail t1400) :=
  (c7_unresolvable_email_skipped envNoEmail t1400
    { id := "h1", name := "Meditate", user_id := "U",
      notify_time := "14:00:00", active := true }
    (by decide) (by decide) (by decide) (by decide) (by decide) (by decide) rfl).1

/-- Claim C9: the habit job is a pure function of the store environment
and the current IST hour and minute, so two invocations within the same
matching minute on an unchanged store produce identical responses and
identical email traces; concretely, two invocations one second apart
inside minute 14:00 each attempt the Meditate email, two emails to the
owner in total. -/
theorem c9_same_minute_invocations_identical :
    (∀ (env : Env) (n1 n2 : Nat), istHour n1 = istHour n2 → istMinute n1 = istMinute n2 →
      habitJob env n1 = habitJob env n2) ∧
    habitJob envMeditate t1400b = habitJob envMeditate t1400 ∧
    (habitJob envMeditate t1400).2 ++ (habitJob envMeditate t1400b).2 =
      [{ userId := "U", toAddr := "u@x.com", subject := "Reminder: Meditate",
         html := "<p>This is your scheduled reminder for habit: <strong>Meditate</strong> at 14:00 IST.</p>" },
       { userId := "U", toAddr := "u@x.com", subject := "Reminder: Meditate",
         html := "<p>This is your scheduled reminder for habit: <strong>Meditate</strong> at 14:00 IST.</p>" }] := by
  refine ⟨?_, by decide, by decide⟩
  intro env n1 n2 h1 h2
  have hc : currentMinuteStr n1 = currentMinuteStr n2 := by
    unfold currentMinuteStr; rw [h1, h2]
  have hm : matchedHabits env n1 = matchedHabits env n2 := by
    unfold matchedHabits; rw [hc]
  have hq : habitProfilesQ env n1 = habitProfilesQ env n2 := by
    unfold habitProfilesQ habitUserIds; rw [hm]
  unfold habitJob
  rw [hc, hm, hq, h1, h2]

/-- Witness for C9: determinism applied to the two instants inside
minute 14:00. -/
theorem c9_same_minute_invocations_identical_witness :
    habitJob envMeditate t1400 = habitJob envMeditate t1400b :=
  (c9_same_minute_invocations_identical).1 envMeditate t1400 t1400b (by decide) (by decide)

/-- Claim C10: every success response of the habit job has
sent ≤ habitsChecked, every success response of the task job has
sent ≤ usersConsidered ≤ pendingTasks (sent is a Nat, so 0 ≤ sent holds
by type), and the task job attempts at most one email per user id. -/
theorem c10_response_count_invariants :
    (∀ (env : Env) (nowMs s c : Nat) (a : String),
      (habitJob env nowMs).1 = .success s c a → s ≤ c) ∧
    (∀ (env : Env) (nowMs s u : Nat) (d hr : String) (p : Nat),
      (taskJob env nowMs).1 = .success s u d hr p → s ≤ u ∧ u ≤ p) ∧
    (∀ (env : Env) (nowMs : Nat), ((taskJob env nowMs).2.map (·.userId)).Nodup) := by
  refine ⟨?_, ?_, ?_⟩
  · intro env nowMs s c a h
    obtain ⟨-, -, hs, hc, -⟩ := habitJob_success_inv env nowMs s c a h
    rw [hs, hc]
    calc deliveredH env (habitRunAttempts env nowMs)
        ≤ (habitRunAttempts env nowMs).length := List.length_filter_le _ _
      _ ≤ (matchedHabits env nowMs).length := by
          unfold habitRunAttempts habitAttempts
          exact List.length_filterMap_le _ _
  · intro env nowMs s u d hr p h
    obtain ⟨hs, hu, hp, -⟩ := taskJob_success_inv env nowMs s u d hr p h
    rw [hs, hu, hp]
    constructor
    · calc deliveredT env (taskRunAttempts env nowMs)
          ≤ (taskRunAttempts env nowMs).length := List.length_filter_le _ _
        _ ≤ (taskUserIds env nowMs).length := by
            unfold taskRunAttempts taskAttempts
            exact List.length_filterMap_le _ _
    · calc (taskUserIds env nowMs).length
          ≤ ((pendingOf env nowMs).map (·.user_id)).length := by
            unfold taskUserIds
            exact length_dedupFirst _
        _ = (pendingOf env nowMs).length := List.length_map _ _
  · intro env nowMs
    rcases taskJob_snd_cases env nowMs with h2 | h2 <;> rw [h2]
    · simp
    · unfold taskRunAttempts
      exact (map_userId_taskAttempts_sublist env (taskProfilesQ env nowMs)
        (pendingOf env nowMs) (dateStrOf nowMs) (pad2 (istHour nowMs))
        (taskUserIds env nowMs)).nodup (by unfold taskUserIds; exact nodup_dedupFirst _)

/-- Witness for C10: the count bounds applied to the two
partial-failure runs (sent 1 of 2 habits checked; sent 1, 2 users
considered, 2 pending tasks). -/
theorem c10_response_count_invariants_witness : 1 ≤ 2 ∧ (1 ≤ 2 ∧ 2 ≤ 2) :=
  ⟨c10_response_count_invariants.1 envPartial t1400 1 2 "14:00:00" (by decide),
   c10_response_count_invariants.2.1 envTasksPartial t1400 1 2 "1970-01-01" "14" 2 (by decide)⟩

end Spec2Proof
